import Mathlib

/-!
Verification of the AnaliticsApp data-source reader framework
(`files.py`, `database.py`): a shallow embedding of the parameter
validation, reader dispatch, reading, chart generation and chart
persistence logic, with theorems checking the behavioural claims.

Python dictionaries are embedded as association lists (`List (String × _)`),
Python runtime values as the inductive `PyValue`, and pandas data frames as
lists of named, dtype-tagged columns.
-/

namespace AnaliticsApp

/-- The runtime types that occur as declared parameter types in the code
(`str` everywhere; `int`/`bool`/`NoneType` are possible runtime types of
user-supplied values). -/
inductive PyType where
  | str
  | int
  | bool
  | noneType
deriving DecidableEq, Repr

/-- A Python runtime value, restricted to the primitives the parameter
system manipulates. -/
inductive PyValue where
  | str (s : String)
  | int (n : Int)
  | bool (b : Bool)
  | none
deriving DecidableEq, Repr

/-- `type(v)` of the embedding: the exact runtime type, with no subtyping
(in CPython, `type(True)` is `bool`, never `int`). -/
def typeOf : PyValue → PyType
  | PyValue.str _ => PyType.str
  | PyValue.int _ => PyType.int
  | PyValue.bool _ => PyType.bool
  | PyValue.none => PyType.noneType

/-- Python truthiness of the embedded values: empty string, zero, `False`
and `None` are falsy. -/
def truthy : PyValue → Bool
  | PyValue.str s => !(s == "")
  | PyValue.int n => !(n == 0)
  | PyValue.bool b => b
  | PyValue.none => false

/-- Dictionary lookup `d[k]` / `d.get(k)` on the association-list embedding
(first binding wins; Python dicts have unique keys). -/
def lookupKey {α : Type} : List (String × α) → String → Option α
  | [], _ => Option.none
  | p :: rest, k => if p.1 == k then Option.some p.2 else lookupKey rest k

/-- The distinct failure sites of `validate_required_fields` (files.py
lines 8-36): the two `assert`s, the `required_fields[field]` `KeyError`,
the `ValueError` for a falsy value and the `TypeError` for a type
mismatch. -/
inductive ValidationError where
  | noParams
  | missingParams (missing : List String)
  | keyError (field : String)
  | emptyValue (field : String)
  | typeMismatch (field : String)
deriving DecidableEq, Repr

/-- One iteration of the `for field in list(extra_kwargs_keys)` loop of
`validate_required_fields` (files.py lines 23-36): in source order, look the
field up in `provided_fields` (always present: `field` ranges over the
provided keys), then in `required_fields` (a `KeyError` escapes when the
field is not required), then reject a falsy value, then an exact runtime
type mismatch. -/
def checkField (required_fields : List (String × PyType))
    (provided_fields : List (String × PyValue)) (field : String) :
    Option ValidationError :=
  match lookupKey provided_fields field with
  | Option.none => Option.some (ValidationError.keyError field)
  | Option.some v =>
    match lookupKey required_fields field with
    | Option.none => Option.some (ValidationError.keyError field)
    | Option.some t =>
      if truthy v = false then Option.some (ValidationError.emptyValue field)
      else if typeOf v ≠ t then Option.some (ValidationError.typeMismatch field)
      else Option.none

/-- The field loop of `validate_required_fields`, over the provided keys:
the first failing field aborts the validation. -/
def checkFieldsLoop (required_fields : List (String × PyType))
    (provided_fields : List (String × PyValue)) :
    List String → Except ValidationError Unit
  | [] => Except.ok ()
  | f :: rest =>
    match checkField required_fields provided_fields f with
    | Option.some e => Except.error e
    | Option.none => checkFieldsLoop required_fields provided_fields rest

/-- `validate_required_fields(required_fields, provided_fields)`
(files.py lines 8-36): succeed immediately on an empty requirement,
reject an empty provided mapping, reject required keys missing from the
provided mapping (`required_fields_keys.difference(extra_kwargs_keys)`),
then run the per-field loop over the provided keys. -/
def validate_required_fields (required_fields : List (String × PyType))
    (provided_fields : List (String × PyValue)) : Except ValidationError Unit :=
  if required_fields.isEmpty then Except.ok ()
  else if provided_fields.isEmpty then Except.error ValidationError.noParams
  else
    let missing := (required_fields.map Prod.fst).filter
      (fun k => (lookupKey provided_fields k).isNone)
    if !(missing.isEmpty) then Except.error (ValidationError.missingParams missing)
    else checkFieldsLoop required_fields provided_fields
      (provided_fields.map Prod.fst)

/-- The success condition exactly as the spec states it: the requirement is
empty, or every required key is present with a truthy value of exactly the
declared type. (This is the spec's predicate, for comparison with
`validate_required_fields`; it says nothing about extra provided keys.) -/
def specValidateOk (required_fields : List (String × PyType))
    (provided_fields : List (String × PyValue)) : Bool :=
  required_fields.isEmpty ||
    required_fields.all (fun p =>
      match lookupKey provided_fields p.1 with
      | Option.some v => truthy v && (typeOf v == p.2)
      | Option.none => false)

/-- The acceptance test the field loop applies to a single provided key:
the key is present in both mappings, its value is truthy, and the value's
runtime type is exactly the declared type. -/
def fieldOkFlag (required_fields : List (String × PyType))
    (provided_fields : List (String × PyValue)) (k : String) : Bool :=
  match lookupKey provided_fields k, lookupKey required_fields k with
  | Option.some v, Option.some t => truthy v && (typeOf v == t)
  | _, _ => false

/-- The success condition the code actually implements, as a boolean
predicate: the requirement is empty, or the required keys are all provided,
and every provided key is also required with a truthy value of exactly the
declared type (an extra provided key makes the loop raise `KeyError`). -/
def amendedValidateOk (required_fields : List (String × PyType))
    (provided_fields : List (String × PyValue)) : Bool :=
  required_fields.isEmpty ||
    ((required_fields.map Prod.fst).all
        (fun k => (lookupKey provided_fields k).isSome) &&
      (provided_fields.map Prod.fst).all
        (fun k => fieldOkFlag required_fields provided_fields k))

/-- A pandas column dtype, reduced to what the numeric filter
distinguishes: `select_dtypes(include=np.number)` keeps the numeric
dtypes and drops `object` columns. -/
inductive Dtype where
  | int64
  | float64
  | object
deriving DecidableEq, Repr

/-- One named column of a pandas data frame. -/
structure Column where
  name : String
  dtype : Dtype
  values : List PyValue
deriving DecidableEq, Repr

/-- A pandas data frame: a list of named columns. -/
abbrev DataFrame := List Column

/-- Whether `select_dtypes(include=np.number)` keeps a column of this
dtype. -/
def Dtype.isNumeric : Dtype → Bool
  | Dtype.int64 => true
  | Dtype.float64 => true
  | Dtype.object => false

/-- `dataframe.select_dtypes(include=np.number)`: the new data frame made
of the numeric columns only (pandas returns a new frame and leaves the
receiver unchanged). -/
def selectDtypesNumber (df : DataFrame) : DataFrame :=
  df.filter (fun c => c.dtype.isNumeric)

/-- `CsvReader.read` (files.py lines 138-141), as a function of the data
frame `pd.read_csv` parses from the file: the `select_dtypes` result is
computed but never assigned, so the unfiltered frame is returned. -/
def CsvReader.read (dataframe : DataFrame) : DataFrame :=
  let _ := selectDtypesNumber dataframe
  dataframe

/-- `JsonReader.read` (files.py lines 148-152): same discarded
`select_dtypes` call (the `print` is output only), returns the unfiltered
frame. -/
def JsonReader.read (dataframe : DataFrame) : DataFrame :=
  let _ := selectDtypesNumber dataframe
  dataframe

/-- `PickleReader.read` (files.py lines 159-162): same discarded
`select_dtypes` call, returns the unfiltered frame. -/
def PickleReader.read (dataframe : DataFrame) : DataFrame :=
  let _ := selectDtypesNumber dataframe
  dataframe

/-- `SqliteReader.read` (files.py lines 195-206), as a function of the
frame `pd.read_sql_table` produces: same discarded `select_dtypes` call,
returns the unfiltered frame. -/
def SqliteReader.read (dataframe : DataFrame) : DataFrame :=
  let _ := selectDtypesNumber dataframe
  dataframe

/-- `BaseRemoteDatabaseReader.read` (files.py lines 95-114), shared by the
MySQL, PostgreSQL and MariaDB readers, as a function of the frame
`pd.read_sql_table` produces: same discarded `select_dtypes` call, returns
the unfiltered frame. -/
def BaseRemoteDatabaseReader.read (dataframe : DataFrame) : DataFrame :=
  let _ := selectDtypesNumber dataframe
  dataframe

/-- `XmlReader.read` (files.py lines 178-180): parses the frame, computes
the numeric filter, and ends without a `return` statement — the method
returns `None`, embedded as `Option.none`. -/
def XmlReader.read (dataframe : DataFrame) : Option DataFrame :=
  let _ := selectDtypesNumber dataframe
  Option.none

/-- `HtmlReader.read` (files.py lines 169-171): `pd.read_html` yields the
list of all tables extracted from the document, and the method returns
that list unchanged (no numeric filtering, no selection of one table). -/
def HtmlReader.read (dataframe : List DataFrame) : List DataFrame :=
  dataframe

/-- The concrete reader classes of files.py, one per source kind. -/
inductive ReaderKind where
  | csv
  | json
  | pickle
  | html
  | xml
  | sqlite
  | mysql
  | postgresql
  | mariadb
deriving DecidableEq, Repr

/-- `FileManager._extension_readers` (files.py lines 225-227): the local
file readers keyed by their `allowed_extension`, in subclass declaration
order. -/
def extension_readers : List (String × ReaderKind) :=
  [("csv", ReaderKind.csv), ("json", ReaderKind.json),
    ("pickle", ReaderKind.pickle), ("html", ReaderKind.html),
    ("xml", ReaderKind.xml), ("db", ReaderKind.sqlite)]

/-- `FileManager._database_readers` (files.py lines 229-231): the remote
database readers keyed by their dialect tag. -/
def database_readers : List (String × ReaderKind) :=
  [("mysql+pymysql", ReaderKind.mysql),
    ("postgresql+psycopg2", ReaderKind.postgresql),
    ("mariadb+pymysql", ReaderKind.mariadb)]

/-- `FileManager.allowed_extensions` (files.py line 233): exactly the key
list of the extension-reader registry. -/
def allowed_extensions : List String := extension_readers.map Prod.fst

/-- The character `.` (code point 46). -/
def dotChar : Char := Char.ofNat 46

/-- `file_path.split('.')[-1]`: the substring after the last dot, or the
whole string when no dot occurs (as in Python). -/
def lastExtension (filePath : String) : String :=
  String.mk ((filePath.toList.reverse.takeWhile (fun c => !(c == dotChar))).reverse)

/-- The distinct failure sites of `FileManager._validate_file` (files.py
lines 264-279) and `_get_file_reader_class` (lines 281-286): the no-dot
assert, the allow-list assert (the spec's `UnknownExtensionError`), the
registry assert (`UnsupportedExtensionError`) and the reader-class assert
(`ReaderNotFoundError`). -/
inductive ResolveError where
  | noDot
  | unknownExtension
  | unsupportedExtension
  | readerNotFound
deriving DecidableEq, Repr

/-- Decidable equality for `Except` results, used to evaluate the embedded
operations on concrete inputs. -/
instance {ε α : Type} [DecidableEq ε] [DecidableEq α] :
    DecidableEq (Except ε α) := fun a b =>
  match a, b with
  | Except.ok x, Except.ok y =>
    if h : x = y then Decidable.isTrue (by rw [h])
    else Decidable.isFalse (fun hh => h (Except.ok.inj hh))
  | Except.error e, Except.error f =>
    if h : e = f then Decidable.isTrue (by rw [h])
    else Decidable.isFalse (fun hh => h (Except.error.inj hh))
  | Except.ok _, Except.error _ =>
    Decidable.isFalse (fun hh => Except.noConfusion hh)
  | Except.error _, Except.ok _ =>
    Decidable.isFalse (fun hh => Except.noConfusion hh)

/-- `FileManager._validate_file` (files.py lines 264-279), generalised over
the two registries and the allow-list: an identifier found in the database
registry passes through unchanged before any dot handling; otherwise the
path must contain a dot, and its trailing suffix must be allow-listed and
registered. -/
def validate_file_gen (dbReaders extReaders : List (String × ReaderKind))
    (allowed : List String) (filePath : String) : Except ResolveError String :=
  if (lookupKey dbReaders filePath).isSome then Except.ok filePath
  else if !(filePath.toList.contains dotChar) then
    Except.error ResolveError.noDot
  else
    let extension := lastExtension filePath
    if !(allowed.contains extension) then
      Except.error ResolveError.unknownExtension
    else if !((lookupKey extReaders extension).isSome) then
      Except.error ResolveError.unsupportedExtension
    else Except.ok extension

/-- `FileManager._validate_file` with the concrete registries. -/
def validate_file (filePath : String) : Except ResolveError String :=
  validate_file_gen database_readers extension_readers allowed_extensions
    filePath

/-- `FileManager._get_file_reader_class` (files.py lines 281-286),
generalised: `_extension_readers.get(e) or _database_readers.get(e)` (the
extension registry wins on a shared key), then the assert that a class was
found. -/
def get_file_reader_class_gen
    (extReaders dbReaders : List (String × ReaderKind)) (extension : String) :
    Except ResolveError ReaderKind :=
  match lookupKey extReaders extension with
  | Option.some cls => Except.ok cls
  | Option.none =>
    match lookupKey dbReaders extension with
    | Option.some cls => Except.ok cls
    | Option.none => Except.error ResolveError.readerNotFound

/-- `FileManager._get_file_reader_class` with the concrete registries. -/
def get_file_reader_class (extension : String) : Except ResolveError ReaderKind :=
  get_file_reader_class_gen extension_readers database_readers extension

/-- Source resolution as `file_name`, `_open_file` and
`get_required_fields` perform it: `_validate_file` followed by
`_get_file_reader_class`, generalised over the registries. -/
def resolve_reader_gen (dbReaders extReaders : List (String × ReaderKind))
    (allowed : List String) (filePath : String) :
    Except ResolveError ReaderKind :=
  match validate_file_gen dbReaders extReaders allowed filePath with
  | Except.error e => Except.error e
  | Except.ok extension => get_file_reader_class_gen extReaders dbReaders extension

/-- Source resolution with the concrete registries. -/
def resolve_reader (filePath : String) : Except ResolveError ReaderKind :=
  match validate_file filePath with
  | Except.error e => Except.error e
  | Except.ok extension => get_file_reader_class extension

/-- The six connection parameters every remote database reader requires
(files.py lines 72-79). -/
def remoteRequiredFields : List (String × PyType) :=
  [("table_name", PyType.str), ("hostname", PyType.str),
    ("port", PyType.str), ("user", PyType.str),
    ("password", PyType.str), ("schema", PyType.str)]

/-- Their display labels (files.py lines 81-88). -/
def remoteVerboseNames : List (String × String) :=
  [("table_name", "Название таблицы"), ("hostname", "Хост"),
    ("port", "Порт"), ("user", "Пользователь"),
    ("password", "Пароль"), ("schema", "База данных")]

/-- `required_fields` of each reader class (files.py lines 41, 72-79 and
187-189): empty for the plain file readers, `table_name` for SQLite, the
six connection fields for the remote readers. -/
def readerRequiredFields : ReaderKind → List (String × PyType)
  | ReaderKind.csv => []
  | ReaderKind.json => []
  | ReaderKind.pickle => []
  | ReaderKind.html => []
  | ReaderKind.xml => []
  | ReaderKind.sqlite => [("table_name", PyType.str)]
  | ReaderKind.mysql => remoteRequiredFields
  | ReaderKind.postgresql => remoteRequiredFields
  | ReaderKind.mariadb => remoteRequiredFields

/-- `required_fields_verbose_names` of each reader class (files.py lines
42, 81-88 and 191-193). -/
def readerVerboseNames : ReaderKind → List (String × String)
  | ReaderKind.csv => []
  | ReaderKind.json => []
  | ReaderKind.pickle => []
  | ReaderKind.html => []
  | ReaderKind.xml => []
  | ReaderKind.sqlite => [("table_name", "Название таблицы")]
  | ReaderKind.mysql => remoteVerboseNames
  | ReaderKind.postgresql => remoteVerboseNames
  | ReaderKind.mariadb => remoteVerboseNames

/-- `FileManager.required_fields` (files.py lines 235-238): the fixed
global schema requiring the two axis-column names. -/
def FileManager.required_fields : List (String × PyType) :=
  [("plot_verbose", PyType.str), ("plot_value", PyType.str)]

/-- `FileManager.required_fields_verbose_names` (files.py lines
240-243). -/
def FileManager.required_fields_verbose_names : List (String × String) :=
  [("plot_verbose", "Поле обозначения координат"),
    ("plot_value", "Поле координат")]

/-- `base.copy()` followed by `.update(other)` on Python dicts: existing
keys keep their position but take `other`'s value; new keys of `other` are
appended in `other`'s order. -/
def dictUpdate {α : Type} (base other : List (String × α)) :
    List (String × α) :=
  base.map (fun p =>
    match lookupKey other p.1 with
    | Option.some v => (p.1, v)
    | Option.none => p) ++
    other.filter (fun q => (lookupKey base q.1).isNone)

/-- The piece of `FileManager` instance state that `get_required_fields`
writes: `__current_file_path`. -/
structure FMState where
  currentFilePath : Option String
deriving DecidableEq, Repr

/-- `FileManager.get_required_fields` (files.py lines 303-318): record the
identifier in `__current_file_path` (even when resolution then fails),
resolve the reader class, and return its required-field schema and label
map, each updated with the manager's fixed global entries. -/
def get_required_fields (_fm : FMState) (filePath : String) :
    FMState ×
      Except ResolveError
        (List (String × PyType) × List (String × String)) :=
  (FMState.mk (Option.some filePath),
    match resolve_reader filePath with
    | Except.error e => Except.error e
    | Except.ok cls =>
      Except.ok
        (dictUpdate (readerRequiredFields cls) FileManager.required_fields,
          dictUpdate (readerVerboseNames cls)
            FileManager.required_fields_verbose_names))

/-- The failure sites of `FileManager.generate_chart` (files.py lines
320-330): the two `kwargs.pop` `KeyError`s, a failing read, and the
`KeyError` raised by `file[key]` for a column absent from the table (the
spec's `ColumnNotFoundError`). -/
inductive ChartError where
  | keyError (field : String)
  | readFailed
  | columnNotFound (key : PyValue)
deriving DecidableEq, Repr

/-- Removal of a key from a parameter dict, as `dict.pop` leaves it. -/
def eraseKey (params : List (String × PyValue)) (k : String) :
    List (String × PyValue) :=
  params.eraseP (fun p => p.1 == k)

/-- `kwargs.pop(k)`: the value at `k` together with the mapping without
`k`, or a `KeyError` (`Option.none`) when `k` is absent. -/
def popKey (params : List (String × PyValue)) (k : String) :
    Option (PyValue × List (String × PyValue)) :=
  match lookupKey params k with
  | Option.none => Option.none
  | Option.some v => Option.some (v, eraseKey params k)

/-- `file[key]` on a data frame: the values of the column whose name
equals the (string) key; a non-string key or an unknown name raises
`KeyError`. -/
def getColumn (df : DataFrame) (key : PyValue) : Option (List PyValue) :=
  match key with
  | PyValue.str s =>
    match df.find? (fun c => c.name == s) with
    | Option.some c => Option.some c.values
    | Option.none => Option.none
  | _ => Option.none

/-- The chart handed back by `generate_chart`:
`ax.plot(file[plot_verbose], file[plot_value])` with the two extracted
columns in `(label, value)` order. -/
structure Figure where
  labelData : List PyValue
  valueData : List PyValue
deriving DecidableEq, Repr

/-- `FileManager.generate_chart` (files.py lines 320-330), with
`_open_file` abstracted into `readFn` (resolution, reader construction
with the remaining parameters and `read()` combined): pop the two axis
names out of the parameters first, read the table with what is left, then
build `[file[plot_verbose], file[plot_value]]` — the comprehension indexes
the label column first, so a missing label column is reported before a
missing value column. -/
def generate_chart
    (readFn : List (String × PyValue) → Option DataFrame)
    (params : List (String × PyValue)) : Except ChartError Figure :=
  match popKey params "plot_verbose" with
  | Option.none => Except.error (ChartError.keyError "plot_verbose")
  | Option.some (plotVerbose, params1) =>
    match popKey params1 "plot_value" with
    | Option.none => Except.error (ChartError.keyError "plot_value")
    | Option.some (plotValue, params2) =>
      match readFn params2 with
      | Option.none => Except.error ChartError.readFailed
      | Option.some file =>
        match getColumn file plotVerbose with
        | Option.none => Except.error (ChartError.columnNotFound plotVerbose)
        | Option.some labelData =>
          match getColumn file plotValue with
          | Option.none => Except.error (ChartError.columnNotFound plotValue)
          | Option.some valueData => Except.ok (Figure.mk labelData valueData)

/-- A row of the `chart_history` table (database.py lines 22-44): integer
autoincrementing primary key, source file name, and the JSON parameter
mapping (nullable). -/
structure ChartRecord where
  id : Nat
  file_name : String
  extra_data : Option (List (String × PyValue))
deriving DecidableEq, Repr

/-- The persisted contents of the `chart_history` table, rows in insertion
order. -/
structure DBState where
  rows : List ChartRecord
deriving DecidableEq, Repr

/-- The largest id present in the table (0 when empty). -/
def maxChartId (rows : List ChartRecord) : Nat :=
  rows.foldr (fun r acc => max r.id acc) 0

/-- The id the autoincrementing primary key assigns to the next inserted
row: one more than the largest id in the table (rows are never deleted). -/
def nextChartId (rows : List ChartRecord) : Nat :=
  maxChartId rows + 1

/-- `ChartHistory.create` (database.py lines 56-61): execute an insert of
one row with a fresh autoincremented id, and commit. -/
def ChartHistory.create (s : DBState) (fileName : String)
    (extraData : Option (List (String × PyValue))) : DBState :=
  DBState.mk
    (s.rows ++ [ChartRecord.mk (nextChartId s.rows) fileName extraData])

/-- `ChartHistory.get_chart` (database.py lines 51-54): the first row whose
primary key equals `chart_id` (`session.scalar` of the filtered select). -/
def ChartHistory.get_chart (s : DBState) (chartId : Nat) : Option ChartRecord :=
  s.rows.find? (fun r => r.id == chartId)

end AnaliticsApp

namespace AnaliticsApp

theorem missingFilter_isEmpty {α : Type} (ks : List String)
    (d : List (String × α)) :
    (ks.filter (fun k => (lookupKey d k).isNone)).isEmpty =
      ks.all (fun k => (lookupKey d k).isSome) := by
  induction ks with
  | nil => rfl
  | cons a l ih =>
    cases h : lookupKey d a with
    | none => simp [h]
    | some v => simp [h, ih]

theorem checkField_none_bool (required_fields : List (String × PyType))
    (provided_fields : List (String × PyValue)) (k : String) :
    (checkField required_fields provided_fields k = Option.none) ↔
      (fieldOkFlag required_fields provided_fields k = true) := by
  unfold checkField fieldOkFlag
  cases hv : lookupKey provided_fields k with
  | none => simp
  | some v =>
    cases ht : lookupKey required_fields k with
    | none => simp
    | some t =>
      by_cases htr : truthy v = false
      · simp [htr]
      · by_cases hty : typeOf v = t
        · simp [htr, hty]
        · simp [htr, hty]

theorem checkFieldsLoop_ok_iff (required_fields : List (String × PyType))
    (provided_fields : List (String × PyValue)) (ks : List String) :
    checkFieldsLoop required_fields provided_fields ks = Except.ok () ↔
      ∀ k ∈ ks, checkField required_fields provided_fields k = Option.none := by
  induction ks with
  | nil => simp [checkFieldsLoop]
  | cons f rest ih =>
    simp only [checkFieldsLoop]
    cases h : checkField required_fields provided_fields f with
    | some e => simp [h]
    | none => simp [h, ih]

/-- Claim C1 (counterexample): the claimed characterisation of
`validate_required_fields` fails when the provided mapping has an extra
key: with `required = {a: str}` and `provided = {a: "x", b: "y"}` the
claimed condition holds, yet the code raises `KeyError` on the extra key
`b` inside the field loop. -/
theorem validate_claim_counterexample :
    ¬ ((validate_required_fields [("a", PyType.str)]
          [("a", PyValue.str "x"), ("b", PyValue.str "y")] = Except.ok ()) ↔
        specValidateOk [("a", PyType.str)]
          [("a", PyValue.str "x"), ("b", PyValue.str "y")] = true) := by
  intro h
  have h2 := h.mpr (by decide)
  have h3 : validate_required_fields [("a", PyType.str)]
      [("a", PyValue.str "x"), ("b", PyValue.str "y")] =
        Except.error (ValidationError.keyError "b") := by rfl
  rw [h3] at h2
  exact Except.noConfusion h2

/-- Claim C1 (corrected): `validate_required_fields(R, P)` succeeds if and
only if `R` is empty, or: every key of `R` is present in `P`, every key of
`P` is also a key of `R` (an extra provided key raises `KeyError`), and
every provided value is truthy with runtime type exactly equal to the
declared type (subtypes do not count). -/
theorem validate_ok_iff_amended (required_fields : List (String × PyType))
    (provided_fields : List (String × PyValue)) :
    validate_required_fields required_fields provided_fields = Except.ok () ↔
      amendedValidateOk required_fields provided_fields = true := by
  simp only [validate_required_fields, amendedValidateOk]
  split_ifs with h1 h2 h3
  · simp [h1]
  · rw [Bool.not_eq_true] at h1
    rw [h1, Bool.false_or]
    cases required_fields with
    | nil => exact absurd h1 (by simp)
    | cons r rs =>
      cases provided_fields with
      | cons p ps => exact absurd h2 (by simp)
      | nil => simp [lookupKey]
  · rw [Bool.not_eq_true] at h1
    rw [h1, Bool.false_or]
    rw [missingFilter_isEmpty, Bool.not_eq_true'] at h3
    rw [h3, Bool.false_and]
    simp
  · rw [Bool.not_eq_true] at h1
    rw [h1, Bool.false_or]
    rw [Bool.not_eq_true, missingFilter_isEmpty, Bool.not_eq_false'] at h3
    rw [h3, Bool.true_and]
    rw [checkFieldsLoop_ok_iff, List.all_eq_true]
    constructor
    · intro h k hk
      exact (checkField_none_bool _ _ k).mp (h k hk)
    · intro h k hk
      exact (checkField_none_bool _ _ k).mpr (h k hk)

/-- Witness for C1's corrected theorem at a concrete input: `{a: str}`
validated against `{a: "x"}` succeeds. -/
theorem validate_ok_iff_amended_witness :
    validate_required_fields [("a", PyType.str)]
      [("a", PyValue.str "x")] = Except.ok () :=
  (validate_ok_iff_amended [("a", PyType.str)]
    [("a", PyValue.str "x")]).mpr (by decide)

/-- Claim C2 (code bug): the CSV, JSON, pickle, SQLite and remote readers
do NOT retain only the numeric-compatible columns — each computes
`select_dtypes(include=np.number)` but never assigns the result, so
`read()` returns the parsed table unfiltered. Universally, every such
`read` is the identity on the parsed frame; at the failing input (a table
with a non-numeric column `x` and a numeric column `y`) the returned table
differs from the filtered table the claim demands. -/
theorem readers_return_unfiltered :
    (∀ df : DataFrame,
      CsvReader.read df = df ∧ JsonReader.read df = df ∧
        PickleReader.read df = df ∧ SqliteReader.read df = df ∧
        BaseRemoteDatabaseReader.read df = df) ∧
      (CsvReader.read
          [Column.mk "x" Dtype.object [PyValue.str "a"],
            Column.mk "y" Dtype.int64 [PyValue.int 1]] =
        [Column.mk "x" Dtype.object [PyValue.str "a"],
          Column.mk "y" Dtype.int64 [PyValue.int 1]] ∧
        selectDtypesNumber
            [Column.mk "x" Dtype.object [PyValue.str "a"],
              Column.mk "y" Dtype.int64 [PyValue.int 1]] =
          [Column.mk "y" Dtype.int64 [PyValue.int 1]] ∧
        CsvReader.read
            [Column.mk "x" Dtype.object [PyValue.str "a"],
              Column.mk "y" Dtype.int64 [PyValue.int 1]] ≠
          selectDtypesNumber
            [Column.mk "x" Dtype.object [PyValue.str "a"],
              Column.mk "y" Dtype.int64 [PyValue.int 1]]) := by
  refine ⟨fun df => ⟨rfl, rfl, rfl, rfl, rfl⟩, by decide⟩

/-- Claim C3 (counterexample): the XML reader does not return the
unfiltered parsed table — its `read()` has no `return` statement at all,
so it returns `None`: on a concrete well-formed parse result the returned
value is `None`, not the parsed table. -/
theorem xml_read_counterexample :
    XmlReader.read [Column.mk "y" Dtype.int64 [PyValue.int 1]] ≠
        Option.some [Column.mk "y" Dtype.int64 [PyValue.int 1]] ∧
      XmlReader.read [Column.mk "y" Dtype.int64 [PyValue.int 1]] =
        Option.none := by
  decide

/-- Claim C3 (corrected): for every parse result, the XML reader computes
the numeric-only column filter, discards it, and returns `None` — no table
at all, filtered or unfiltered. -/
theorem xml_read_returns_none :
    ∀ df : DataFrame, XmlReader.read df = Option.none :=
  fun _ => rfl

/-- Claim C9 (counterexample): when two tables are extracted from the HTML
document, `read()` returns the two-element list of tables, not the first
table as a single value. -/
theorem html_read_counterexample :
    HtmlReader.read
        [[Column.mk "a" Dtype.int64 [PyValue.int 1]],
          [Column.mk "b" Dtype.int64 [PyValue.int 2]]] =
      [[Column.mk "a" Dtype.int64 [PyValue.int 1]],
        [Column.mk "b" Dtype.int64 [PyValue.int 2]]] ∧
      [[Column.mk "a" Dtype.int64 [PyValue.int 1]],
          [Column.mk "b" Dtype.int64 [PyValue.int 2]]] ≠
        [[Column.mk "a" Dtype.int64 [PyValue.int 1]]] := by
  decide

/-- Claim C9 (corrected): the HTML reader returns the entire list of
extracted tables unchanged — the raw `pd.read_html` result, not a single
first table and with no numeric filtering. -/
theorem html_read_returns_all_tables :
    ∀ tables : List DataFrame, HtmlReader.read tables = tables :=
  fun _ => rfl

theorem lookupKey_isSome_of_contains {α : Type} (d : List (String × α))
    (k : String) (h : (d.map Prod.fst).contains k = true) :
    (lookupKey d k).isSome = true := by
  induction d with
  | nil => exact absurd h (by simp)
  | cons p rest ih =>
    by_cases hk : p.1 = k
    · simp [lookupKey, hk]
    · have hkk : (k == p.1) = false :=
        beq_eq_false_iff_ne.mpr (fun hh => hk hh.symm)
      rw [List.map_cons, List.contains_cons, hkk, Bool.false_or] at h
      have hpk : (p.1 == k) = false := beq_eq_false_iff_ne.mpr hk
      simp [lookupKey, hpk, ih h]

/-- Claim C4 (confirmed): for every registered suffix `s`, resolving
`"x." + s` yields the reader registered for `s`; a non-dialect identifier
containing a dot whose trailing suffix is missing from the allow-list
fails at the allow-list assert (the spec's `UnknownExtensionError`); an
allow-listed but unregistered suffix fails at the registry assert
(`UnsupportedExtensionError`) — the last part stated over arbitrary
registries, since the concrete allow-list never disagrees with the
concrete registry. -/
theorem resolve_extension_spec :
    (∀ p ∈ extension_readers, resolve_reader ("x." ++ p.1) = Except.ok p.2) ∧
      (∀ filePath : String,
        lookupKey database_readers filePath = Option.none →
        filePath.toList.contains dotChar = true →
        allowed_extensions.contains (lastExtension filePath) = false →
        resolve_reader filePath = Except.error ResolveError.unknownExtension) ∧
      (∀ (dbReaders extReaders : List (String × ReaderKind))
          (allowed : List String) (filePath : String),
        lookupKey dbReaders filePath = Option.none →
        filePath.toList.contains dotChar = true →
        allowed.contains (lastExtension filePath) = true →
        lookupKey extReaders (lastExtension filePath) = Option.none →
        resolve_reader_gen dbReaders extReaders allowed filePath =
          Except.error ResolveError.unsupportedExtension) := by
  refine ⟨by decide, ?_, ?_⟩
  · intro filePath h1 h2 h3
    have h2' : dotChar ∈ filePath.data := by simpa using h2
    have h3' : lastExtension filePath ∉ allowed_extensions := by simpa using h3
    simp [resolve_reader, validate_file, validate_file_gen, h1, h2', h3']
  · intro dbReaders extReaders allowed filePath h1 h2 h3 h4
    have h2' : dotChar ∈ filePath.data := by simpa using h2
    have h3' : lastExtension filePath ∈ allowed := by simpa using h3
    simp [resolve_reader_gen, validate_file_gen, h1, h2', h3', h4]

/-- Witness for C4 at concrete inputs: `"x.csv"` resolves to the CSV
reader, `"x.foo"` fails at the allow-list check, and with an allow-list
containing `foo` but an empty registry, `"x.foo"` fails at the registry
check. -/
theorem resolve_extension_spec_witness :
    resolve_reader "x.csv" = Except.ok ReaderKind.csv ∧
      resolve_reader "x.foo" = Except.error ResolveError.unknownExtension ∧
      resolve_reader_gen [] [] ["foo"] "x.foo" =
        Except.error ResolveError.unsupportedExtension :=
  ⟨resolve_extension_spec.1 ("csv", ReaderKind.csv) (by decide),
    resolve_extension_spec.2.1 "x.foo" (by decide) (by decide) (by decide),
    resolve_extension_spec.2.2 [] [] ["foo"] "x.foo" (by decide) (by decide)
      (by decide) (by decide)⟩

/-- Claim C5 (confirmed): every registered dialect tag resolves to its
remote reader, and the dialect-registry membership check runs before any
dot handling — generically, any identifier found in the database registry
passes `_validate_file` through unchanged whether or not it contains a
dot, and resolves to its database reader whenever the extension registry
does not shadow it (the concrete registries share no key). -/
theorem resolve_dialect_spec :
    (∀ p ∈ database_readers, resolve_reader p.1 = Except.ok p.2) ∧
      (∀ (dbReaders extReaders : List (String × ReaderKind))
          (allowed : List String) (filePath : String) (cls : ReaderKind),
        lookupKey dbReaders filePath = Option.some cls →
        validate_file_gen dbReaders extReaders allowed filePath =
            Except.ok filePath ∧
          (lookupKey extReaders filePath = Option.none →
            resolve_reader_gen dbReaders extReaders allowed filePath =
              Except.ok cls)) := by
  refine ⟨by decide, ?_⟩
  intro dbReaders extReaders allowed filePath cls h
  constructor
  · simp [validate_file_gen, h]
  · intro h2
    simp [resolve_reader_gen, validate_file_gen, get_file_reader_class_gen,
      h, h2]

/-- Witness for C5 at concrete inputs: the registered tag
`"mysql+pymysql"` resolves to the MySQL reader, and a dialect tag that
does contain a dot still passes through and resolves to its reader. -/
theorem resolve_dialect_spec_witness :
    resolve_reader "mysql+pymysql" = Except.ok ReaderKind.mysql ∧
      validate_file_gen [("my.dialect", ReaderKind.mysql)] [] []
          "my.dialect" = Except.ok "my.dialect" ∧
      resolve_reader_gen [("my.dialect", ReaderKind.mysql)] [] []
          "my.dialect" = Except.ok ReaderKind.mysql :=
  ⟨resolve_dialect_spec.1 ("mysql+pymysql", ReaderKind.mysql) (by decide),
    (resolve_dialect_spec.2 [("my.dialect", ReaderKind.mysql)] [] []
        "my.dialect" ReaderKind.mysql (by decide)).1,
    (resolve_dialect_spec.2 [("my.dialect", ReaderKind.mysql)] [] []
        "my.dialect" ReaderKind.mysql (by decide)).2 (by decide)⟩

/-- Claim C10 (confirmed): because the allow-list is exactly the key list
of the extension-reader registry, the `UnsupportedExtensionError` branch
of `_validate_file` is unreachable — generically for any registries whose
allow-list is the registry's key list, hence for the concrete
`_validate_file`. -/
theorem unsupported_branch_unreachable :
    (∀ (dbReaders extReaders : List (String × ReaderKind))
        (filePath : String),
      validate_file_gen dbReaders extReaders (extReaders.map Prod.fst)
          filePath ≠
        Except.error ResolveError.unsupportedExtension) ∧
      (∀ filePath : String,
        validate_file filePath ≠
          Except.error ResolveError.unsupportedExtension) := by
  have hgen : ∀ (dbReaders extReaders : List (String × ReaderKind))
      (filePath : String),
      validate_file_gen dbReaders extReaders (extReaders.map Prod.fst)
          filePath ≠
        Except.error ResolveError.unsupportedExtension := by
    intro dbReaders extReaders filePath
    by_cases h1 : (lookupKey dbReaders filePath).isSome = true
    · simp [validate_file_gen, h1]
    · rw [Bool.not_eq_true] at h1
      by_cases h2 : dotChar ∈ filePath.data
      · by_cases h3 : (extReaders.map Prod.fst).contains
            (lastExtension filePath) = true
        · have h4 := lookupKey_isSome_of_contains extReaders
            (lastExtension filePath) h3
          have h3' : lastExtension filePath ∈ extReaders.map Prod.fst := by
            simpa using h3
          have h4' : lookupKey extReaders (lastExtension filePath) ≠
              Option.none := by
            intro hh
            rw [hh] at h4
            exact Bool.noConfusion h4
          simp [validate_file_gen, h1, h2, h3', h4']
        · rw [Bool.not_eq_true] at h3
          have h3' : lastExtension filePath ∉ extReaders.map Prod.fst := by
            simpa using h3
          simp [validate_file_gen, h1, h2, h3']
      · simp [validate_file_gen, h1, h2]
  exact ⟨hgen, fun filePath =>
    hgen database_readers extension_readers filePath⟩

/-- Claim C6 (confirmed): `get_required_fields` called a second time on
the same manager with the same identifier returns the same state and
value, and on success the returned schema and label map are the resolved
reader's own schema and label map unioned with the manager's fixed global
entries (`plot_verbose` and `plot_value`, both strings) — the dict update
is a plain append because no reader schema mentions the two global
keys. -/
theorem get_required_fields_spec :
    (∀ (fm : FMState) (filePath : String),
      get_required_fields (get_required_fields fm filePath).1 filePath =
        get_required_fields fm filePath) ∧
      (∀ (fm : FMState) (filePath : String) (cls : ReaderKind),
        resolve_reader filePath = Except.ok cls →
        (get_required_fields fm filePath).2 =
          Except.ok
            (readerRequiredFields cls ++ FileManager.required_fields,
              readerVerboseNames cls ++
                FileManager.required_fields_verbose_names)) := by
  constructor
  · intro fm filePath
    rfl
  · intro fm filePath cls h
    simp only [get_required_fields, h]
    cases cls <;> decide

/-- Witness for C6 at a concrete input: for `"data.csv"` the returned
schema is the CSV reader's (empty) schema followed by the two global axis
fields. -/
theorem get_required_fields_spec_witness :
    (get_required_fields (FMState.mk Option.none) "data.csv").2 =
      Except.ok
        (readerRequiredFields ReaderKind.csv ++ FileManager.required_fields,
          readerVerboseNames ReaderKind.csv ++
            FileManager.required_fields_verbose_names) :=
  get_required_fields_spec.2 (FMState.mk Option.none) "data.csv"
    ReaderKind.csv (by decide)

/-- Claim C7 (confirmed): `generate_chart` pops `plot_verbose` and
`plot_value` out of the parameters before the reader runs (the read
function receives the parameter list with both keys removed), then
extracts the label column first and the value column second, failing with
the error naming the missing column (`ColumnNotFoundError`) when either
axis name is absent from the table's columns. -/
theorem generate_chart_spec :
    ∀ (readFn : List (String × PyValue) → Option DataFrame)
      (params : List (String × PyValue)) (v1 v2 : PyValue)
      (frame : DataFrame),
      lookupKey params "plot_verbose" = Option.some v1 →
      lookupKey (eraseKey params "plot_verbose") "plot_value" =
        Option.some v2 →
      readFn (eraseKey (eraseKey params "plot_verbose") "plot_value") =
        Option.some frame →
      ((getColumn frame v1 = Option.none →
          generate_chart readFn params =
            Except.error (ChartError.columnNotFound v1)) ∧
        (∀ labelData, getColumn frame v1 = Option.some labelData →
          getColumn frame v2 = Option.none →
          generate_chart readFn params =
            Except.error (ChartError.columnNotFound v2)) ∧
        (∀ labelData valueData,
          getColumn frame v1 = Option.some labelData →
          getColumn frame v2 = Option.some valueData →
          generate_chart readFn params =
            Except.ok (Figure.mk labelData valueData))) := by
  intro readFn params v1 v2 frame h1 h2 h3
  refine ⟨?_, ?_, ?_⟩
  · intro hc
    simp only [generate_chart, popKey, h1, h2, h3, hc]
  · intro labelData hc1 hc2
    simp only [generate_chart, popKey, h1, h2, h3, hc1, hc2]
  · intro labelData valueData hc1 hc2
    simp only [generate_chart, popKey, h1, h2, h3, hc1, hc2]

/-- Witness for C7 at the spec's scenario: a table with columns `x` and
`y`, label column `x`, value column `z` — the chart generation fails
naming the missing column `z`. -/
theorem generate_chart_spec_witness :
    generate_chart
        (fun _ =>
          Option.some
            [Column.mk "x" Dtype.object [PyValue.str "a"],
              Column.mk "y" Dtype.int64 [PyValue.int 1]])
        [("plot_verbose", PyValue.str "x"), ("plot_value", PyValue.str "z")] =
      Except.error (ChartError.columnNotFound (PyValue.str "z")) :=
  (generate_chart_spec
      (fun _ =>
        Option.some
          [Column.mk "x" Dtype.object [PyValue.str "a"],
            Column.mk "y" Dtype.int64 [PyValue.int 1]])
      [("plot_verbose", PyValue.str "x"), ("plot_value", PyValue.str "z")]
      (PyValue.str "x") (PyValue.str "z")
      [Column.mk "x" Dtype.object [PyValue.str "a"],
        Column.mk "y" Dtype.int64 [PyValue.int 1]]
      (by decide) (by decide) (by decide)).2.1
    [PyValue.str "a"] (by decide) (by decide)

theorem mem_le_maxChartId (rows : List ChartRecord) (r : ChartRecord)
    (h : r ∈ rows) : r.id ≤ maxChartId rows := by
  induction rows with
  | nil => cases h
  | cons a l ih =>
    rcases List.mem_cons.mp h with h1 | h1
    · rw [h1]
      exact le_max_left _ _
    · exact le_trans (ih h1) (le_max_right _ _)

theorem find?_append_right {α : Type} (l1 l2 : List α) (p : α → Bool)
    (h : ∀ x ∈ l1, p x = false) : (l1 ++ l2).find? p = l2.find? p := by
  induction l1 with
  | nil => rfl
  | cons a l ih =>
    rw [List.cons_append,
      List.find?_cons_of_neg _ (by simp [h a (List.mem_cons_self a l)])]
    exact ih (fun x hx => h x (List.mem_cons_of_mem a hx))

/-- Claim C8 (confirmed): for every prior table state, creating a chart
record and then fetching it by its assigned (autoincremented) id returns
the row just inserted, whose stored parameters (`extra_data`) are exactly
the parameters supplied at creation. -/
theorem create_get_chart_roundtrip :
    ∀ (s : DBState) (fileName : String)
      (extraData : Option (List (String × PyValue))),
      ChartHistory.get_chart (ChartHistory.create s fileName extraData)
          (nextChartId s.rows) =
        Option.some
          (ChartRecord.mk (nextChartId s.rows) fileName extraData) := by
  intro s fileName extraData
  have hAll : ∀ x ∈ s.rows, (x.id == nextChartId s.rows) = false := by
    intro r hr
    rw [beq_eq_false_iff_ne]
    intro hEq
    have hle := mem_le_maxChartId s.rows r hr
    rw [hEq] at hle
    exact Nat.not_succ_le_self _ hle
  unfold ChartHistory.create ChartHistory.get_chart
  rw [find?_append_right s.rows _ _ hAll]
  simp [List.find?]

end AnaliticsApp
